import Mathlib

/-!
Verification of the engineish character movement, collision-resolution and
health/damage core.

The definitions below are shallow embeddings of the JavaScript sources:

* `Vec3`, `Box3` mirror the THREE.js vector / axis-aligned box operations the
  engine uses (`length`, `normalize` with its `length() || 1` guard,
  `crossVectors`, `getCenter`, `intersectsBox`).
* `PlayerState`, `playerBox` mirror `Character`: the bounding box is always
  derived from the group position plus the fixed geometry extents
  (`Box3.setFromObject` on the unchanging character model), which the source
  re-derives after every mutation.
* `isOnTop`, `rewindToHistory`, `handleCollision`, `checkCollisions` mirror
  `Engine.handleCollision` / `Engine.checkCollisions`.  Note that the source
  of `handleCollision` also computes `overlapX/Y/Z`, a slope angle and a
  sorted `resolutionAxes` list (with a push-up `amount` for top contacts);
  that list is dead code — it is never read after sorting — so it does not
  appear in the state transition (the overlap quantities are still defined
  below because theorems refer to them).
* `clampHorizontal`, `moveIntentOf`, `update` mirror `Character.update`,
  including the in-place `multiplyScalar` mutation of the camera basis
  vectors.
* `HealthState`, `takeDamage`, `heal`, `setInvulnerableAt`, `runTimersUpTo`
  mirror `Character`'s health state machine; `setTimeout` callbacks are
  modelled as a queue of pending clear deadlines that fire once their
  deadline has passed (the callback unconditionally clears the flag and is
  never cancelled, exactly as in the source).
* `EngineState`, `addToCollisionSystem`, `setCanCollide`, `candidateIds`
  mirror the broad-phase registration in `Engine` / `Part` / `Group`; parts
  live in a heap addressed by ids so that the aliasing of a mutable `Part`
  shared between the engine's `collidableParts` set and the caller is
  represented faithfully.

Real-number arithmetic stands in for JavaScript doubles.
-/

namespace Engineish

/-- Mirrors THREE.Vector3 restricted to the fields/operations the engine uses. -/
@[ext]
structure Vec3 where
  x : ℝ
  y : ℝ
  z : ℝ

namespace Vec3

def add (a b : Vec3) : Vec3 := ⟨a.x + b.x, a.y + b.y, a.z + b.z⟩

def sub (a b : Vec3) : Vec3 := ⟨a.x - b.x, a.y - b.y, a.z - b.z⟩

/-- THREE.Vector3.multiplyScalar. -/
def smul (a : Vec3) (k : ℝ) : Vec3 := ⟨a.x * k, a.y * k, a.z * k⟩

instance : Add Vec3 := ⟨Vec3.add⟩

instance : Sub Vec3 := ⟨Vec3.sub⟩

theorem add_def (a b : Vec3) : a + b = ⟨a.x + b.x, a.y + b.y, a.z + b.z⟩ := rfl

theorem sub_def (a b : Vec3) : a - b = ⟨a.x - b.x, a.y - b.y, a.z - b.z⟩ := rfl

theorem add_assoc3 (a b c : Vec3) : a + b + c = a + (b + c) := by
  ext <;> simp [add_def] <;> ring

/-- THREE.Vector3.length. -/
noncomputable def length (v : Vec3) : ℝ := Real.sqrt (v.x * v.x + v.y * v.y + v.z * v.z)

/-- THREE.Vector3.normalize: divideScalar(length or 1 when length is zero). -/
noncomputable def normalize (v : Vec3) : Vec3 :=
  let l := if v.length = 0 then 1 else v.length
  ⟨v.x / l, v.y / l, v.z / l⟩

/-- THREE.Vector3.crossVectors. -/
def cross (a b : Vec3) : Vec3 :=
  ⟨a.y * b.z - a.z * b.y, a.z * b.x - a.x * b.z, a.x * b.y - a.y * b.x⟩

theorem length_nonneg (v : Vec3) : 0 ≤ v.length := Real.sqrt_nonneg _

/-- The normalize guard (length or 1) is always positive. -/
theorem normalize_den_pos (v : Vec3) :
    0 < (if v.length = 0 then (1 : ℝ) else v.length) := by
  split
  · exact one_pos
  · exact lt_of_le_of_ne (length_nonneg v) (Ne.symm (by assumption))

/-- A vector with negative y component normalizes to negative y. -/
theorem normalize_y_neg (v : Vec3) (hy : v.y < 0) : (normalize v).y < 0 := by
  unfold normalize
  exact div_neg_of_neg_of_pos hy (normalize_den_pos v)

end Vec3

/-- Mirrors THREE.Box3. -/
@[ext]
structure Box3 where
  min : Vec3
  max : Vec3

namespace Box3

/-- THREE.Box3.getCenter: addVectors(min, max).multiplyScalar(0.5). -/
def center (b : Box3) : Vec3 := (b.min + b.max).smul 0.5

/-- THREE.Box3.intersectsBox, written as the source's negated disjunction of
separations; `a` plays the role of `this`, `b` the argument box. -/
def intersects (a b : Box3) : Prop :=
  ¬ (b.max.x < a.min.x ∨ b.min.x > a.max.x ∨
     b.max.y < a.min.y ∨ b.min.y > a.max.y ∨
     b.max.z < a.min.z ∨ b.min.z > a.max.z)

noncomputable instance (a b : Box3) : Decidable (intersects a b) := by
  unfold intersects
  exact inferInstance

end Box3

/-- The kinematic/health-free character state used by the movement and
collision code, together with the per-instance tunables from
`Character.properties` and the fixed geometry extents of the character model
(`boundingBox.setFromObject(group)` always yields `position + bodyMin` /
`position + bodyMax` for the unchanging default model). -/
structure PlayerState where
  position : Vec3
  velocity : Vec3
  isGrounded : Bool
  isJumping : Bool
  canCollide : Bool
  positionHistory : List Vec3
  bodyMin : Vec3
  bodyMax : Vec3
  moveSpeed : ℝ
  jumpForce : ℝ
  gravity : ℝ
  maxFallSpeed : ℝ
  airResistance : ℝ
  groundFriction : ℝ
  maxVelocity : ℝ

/-- The character's world bounding box, as recomputed by
`boundingBox.setFromObject(this.group)` after every position change. -/
def playerBox (p : PlayerState) : Box3 :=
  ⟨p.position + p.bodyMin, p.position + p.bodyMax⟩

/-- A collidable part as seen by the collision pass: its world bounding box
and its `canCollide` flag. -/
structure Part where
  boundingBox : Box3
  canCollide : Bool

/-- Part.checkCollision(otherPart): false when either side is
non-collidable, else the AABB test. -/
def Part.checkCollision (part : Part) (player : PlayerState) : Prop :=
  part.canCollide = true ∧ player.canCollide = true ∧
    part.boundingBox.intersects (playerBox player)

noncomputable instance (part : Part) (player : PlayerState) :
    Decidable (Part.checkCollision part player) := by
  unfold Part.checkCollision
  exact inferInstance

/-- Engine.handleCollision: minimum penetration on the x axis. -/
def overlapX (p : PlayerState) (partBox : Box3) : ℝ :=
  min ((playerBox p).max.x - partBox.min.x) (partBox.max.x - (playerBox p).min.x)

/-- Engine.handleCollision: minimum penetration on the y axis. -/
def overlapY (p : PlayerState) (partBox : Box3) : ℝ :=
  min ((playerBox p).max.y - partBox.min.y) (partBox.max.y - (playerBox p).min.y)

/-- Engine.handleCollision: minimum penetration on the z axis. -/
def overlapZ (p : PlayerState) (partBox : Box3) : ℝ :=
  min ((playerBox p).max.z - partBox.min.z) (partBox.max.z - (playerBox p).min.z)

/-- Engine.handleCollision: direction from part center to player center,
normalized. -/
noncomputable def collisionDirection (p : PlayerState) (partBox : Box3) : Vec3 :=
  Vec3.normalize (Box3.center (playerBox p) - Box3.center partBox)

/-- The source's `verticalThreshold` for top detection. -/
def verticalThreshold : ℝ := 0.3

/-- Engine.handleCollision's `isOnTop` classification. -/
noncomputable def isOnTop (p : PlayerState) (partBox : Box3) : Prop :=
  ((collisionDirection p partBox).y > 0 ∧
      |(collisionDirection p partBox).y| > verticalThreshold) ∨
    (|(playerBox p).min.y - partBox.max.y| < 0.5 ∧ p.velocity.y ≤ 0)

noncomputable instance (p : PlayerState) (partBox : Box3) :
    Decidable (isOnTop p partBox) := by
  unfold isOnTop
  exact inferInstance

/-- The position-history rewind block of Engine.handleCollision: restore the
oldest stored position, zero the velocity components whose direction
component is large, keep a falling vertical velocity, and reseed the history
with the restored position. -/
noncomputable def rewindToHistory (p : PlayerState) (dir : Vec3) : PlayerState :=
  match p.positionHistory with
  | [] => p
  | lastSafe :: _ =>
    let currentVelocity := p.velocity
    let vx := if |dir.x| > 0.1 then (0 : ℝ) else currentVelocity.x
    let vz := if |dir.z| > 0.1 then (0 : ℝ) else currentVelocity.z
    let vy := if currentVelocity.y < 0 then currentVelocity.y else p.velocity.y
    { p with position := lastSafe,
             velocity := ⟨vx, vy, vz⟩,
             positionHistory := [lastSafe] }

/-- Engine.handleCollision.  A top contact sets the grounded/jumping flags
and zeroes the vertical velocity (the computed push-up resolution is dead
code in the source and the position is left unchanged); a non-top contact
clears the grounded flag and, when the position history is non-empty,
rewinds to the oldest stored position. -/
noncomputable def handleCollision (p : PlayerState) (partBox : Box3) : PlayerState :=
  let p1 :=
    if isOnTop p partBox then
      { p with isGrounded := true, isJumping := false,
               velocity := ⟨p.velocity.x, 0, p.velocity.z⟩ }
    else
      { p with isGrounded := false }
  if p1.positionHistory.length > 0 ∧ ¬ isOnTop p partBox then
    rewindToHistory p1 (collisionDirection p partBox)
  else p1

/-- Engine.checkCollisions restricted to the narrow-phase loop: reset the
grounded flag, then fold `handleCollision` over every candidate that passes
`Part.checkCollision`. -/
noncomputable def checkCollisions (p : PlayerState) (candidates : List Part) : PlayerState :=
  candidates.foldl
    (fun q part =>
      if Part.checkCollision part q then handleCollision q part.boundingBox else q)
    { p with isGrounded := false }

/-- The input snapshot read by Character.update (`this.keys`). -/
structure InputKeys where
  w : Bool
  a : Bool
  s : Bool
  d : Bool
  control : Bool

/-- Character.maxHistoryLength. -/
def maxHistoryLength : Nat := 3

/-- The horizontal speed cap of Character.update: when
`sqrt(vx*vx+vz*vz)` exceeds `maxVelocity`, both horizontal components are
multiplied by `maxVelocity / sqrt(vx*vx+vz*vz)`. -/
noncomputable def clampHorizontal (v : Vec3) (maxVelocity : ℝ) : Vec3 :=
  let horizontalVelocity := Real.sqrt (v.x * v.x + v.z * v.z)
  if horizontalVelocity > maxVelocity then
    let scale := maxVelocity / horizontalVelocity
    ⟨v.x * scale, v.y, v.z * scale⟩
  else v

/-- The input-derived move vector of Character.update.  The source calls
`cameraDirection.multiplyScalar(moveSpeed)` (and the analogous calls on
`cameraRight`), which mutate the basis vector in place before it is added to
`moveVector`; the successively rescaled basis vectors are threaded through
explicitly here. -/
noncomputable def moveIntentOf (keys : InputKeys) (cameraDirection : Vec3)
    (moveSpeed : ℝ) : Vec3 :=
  let cd0 := Vec3.normalize ⟨cameraDirection.x, 0, cameraDirection.z⟩
  let cr0 := Vec3.normalize (Vec3.cross ⟨0, 1, 0⟩ cd0)
  let cd1 := if keys.w then cd0.smul moveSpeed else cd0
  let mv1 := if keys.w then (⟨0, 0, 0⟩ : Vec3) + cd1 else ⟨0, 0, 0⟩
  let cd2 := if keys.s then cd1.smul (-moveSpeed) else cd1
  let mv2 := if keys.s then mv1 + cd2 else mv1
  let cr1 := if keys.a then cr0.smul moveSpeed else cr0
  let mv3 := if keys.a then mv2 + cr1 else mv2
  let cr2 := if keys.d then cr1.smul (-moveSpeed) else cr1
  let mv4 := if keys.d then mv3 + cr2 else mv3
  mv4

/-- Character.update, history step: push the pre-step position, evicting
the oldest entry (shift) beyond maxHistoryLength. -/
def historyAfterPush (p : PlayerState) : List Vec3 :=
  let hist0 := p.positionHistory ++ [p.position]
  if hist0.length > maxHistoryLength then hist0.tail else hist0

/-- Character.update, jump step: the jump impulse fires only when the jump
key is held and the body is grounded. -/
def jumpFires (p : PlayerState) (keys : InputKeys) : Bool :=
  keys.control && p.isGrounded

/-- Character.update: the grounded flag after the jump step. -/
def groundedAfterJump (p : PlayerState) (keys : InputKeys) : Bool :=
  if jumpFires p keys then false else p.isGrounded

/-- Character.update: the jumping flag after the jump step. -/
def jumpingAfterJump (p : PlayerState) (keys : InputKeys) : Bool :=
  if jumpFires p keys then true else p.isJumping

/-- Character.update: the velocity after the jump impulse, gravity with the
fall-speed cap, and air resistance or ground friction — everything before
the horizontal speed cap. -/
def velocityBeforeClamp (p : PlayerState) (keys : InputKeys) : Vec3 :=
  let velJump :=
    if jumpFires p keys then (⟨p.velocity.x, p.jumpForce, p.velocity.z⟩ : Vec3)
    else p.velocity
  let vel2 :=
    if groundedAfterJump p keys = false then
      (⟨velJump.x, max (velJump.y - p.gravity) (-p.maxFallSpeed), velJump.z⟩ : Vec3)
    else velJump
  if groundedAfterJump p keys = false then
    (⟨vel2.x * p.airResistance, vel2.y, vel2.z * p.airResistance⟩ : Vec3)
  else
    (⟨vel2.x * p.groundFriction, vel2.y, vel2.z * p.groundFriction⟩ : Vec3)

/-- Character.update: push the pre-step position onto the history (evicting
the oldest beyond three entries), build the move vector from input, handle
the jump impulse, apply gravity with the fall-speed cap, apply air
resistance or ground friction, cap the horizontal speed, add the velocity to
the move vector, and add the result to the position. -/
noncomputable def update (p : PlayerState) (keys : InputKeys)
    (cameraDirection : Vec3) : PlayerState :=
  let mv := moveIntentOf keys cameraDirection p.moveSpeed
  let vel4 := clampHorizontal (velocityBeforeClamp p keys) p.maxVelocity
  { p with position := p.position + (mv + vel4),
           velocity := vel4,
           isJumping := jumpingAfterJump p keys,
           isGrounded := groundedAfterJump p keys,
           positionHistory := historyAfterPush p }

/-- The health/damage state of Character.properties. -/
structure HealthState where
  health : ℚ
  maxHealth : ℚ
  isInvulnerable : Bool
  invulnerabilityDuration : ℚ
  lastDamageTime : ℚ
deriving DecidableEq

/-- Character.takeDamage: rejected while invulnerable or within the damage
cooldown window; otherwise clamp the new health at zero and record the
damage time.  Returns the source's boolean result with the updated state. -/
def takeDamage (s : HealthState) (now amount : ℚ) : Bool × HealthState :=
  if s.isInvulnerable then (false, s)
  else if now - s.lastDamageTime < s.invulnerabilityDuration then (false, s)
  else (true, { s with health := max 0 (s.health - amount), lastDamageTime := now })

/-- Character.heal: clamp at maxHealth, no invulnerability check. -/
def heal (s : HealthState) (amount : ℚ) : HealthState :=
  { s with health := min s.maxHealth (s.health + amount) }

/-- A call in a takeDamage / heal call sequence. -/
inductive HealthOp where
  | damage (now amount : ℚ)
  | heal (amount : ℚ)

/-- The amount argument of a health call. -/
def HealthOp.amount : HealthOp → ℚ
  | .damage _ a => a
  | .heal a => a

/-- Apply one health call to the state. -/
def applyHealthOp (s : HealthState) : HealthOp → HealthState
  | .damage now a => (takeDamage s now a).2
  | .heal a => heal s a

/-- A character's health state together with the deadlines of the pending
`setTimeout` callbacks scheduled by Character.setInvulnerable.  Each
callback unconditionally clears the invulnerable flag when it fires and is
never cancelled. -/
structure TimedCharacter where
  hs : HealthState
  pendingClears : List ℚ

/-- Character.setInvulnerable called at time `now`: set the flag, overwrite
the cooldown duration, and schedule a clear at `now + duration` without
cancelling any earlier pending clear. -/
def setInvulnerableAt (c : TimedCharacter) (now duration : ℚ) : TimedCharacter :=
  { hs := { c.hs with isInvulnerable := true, invulnerabilityDuration := duration },
    pendingClears := c.pendingClears ++ [now + duration] }

/-- Fire every pending clear whose deadline has passed by time `t`; each
fired callback sets the invulnerable flag to false. -/
def runTimersUpTo (c : TimedCharacter) (t : ℚ) : TimedCharacter :=
  if c.pendingClears.any (fun dl => decide (dl ≤ t)) then
    { hs := { c.hs with isInvulnerable := false },
      pendingClears := c.pendingClears.filter (fun dl => decide (¬ dl ≤ t)) }
  else c

/-- The broad-phase registration state of the engine.  Parts are stored in a
heap addressed by ids, so that a `Part` object mutated through
`setCanCollide` is the same object referenced from the engine's
`collidableParts` set and from group member lists. -/
structure EngineState where
  heap : List Part
  collidableIds : List Nat
  groupIds : List (List Nat)

/-- Dereference a part id in the heap. -/
def getPart (w : EngineState) (pid : Nat) : Part :=
  w.heap.getD pid ⟨⟨⟨0, 0, 0⟩, ⟨0, 0, 0⟩⟩, true⟩

/-- Engine.addToCollisionSystem: membership in `collidableParts` is decided
by the part's flag at registration time. -/
def addToCollisionSystem (w : EngineState) (pid : Nat) : EngineState :=
  if (getPart w pid).canCollide then
    { w with collidableIds := w.collidableIds ++ [pid] }
  else w

/-- Group.add restricted to its collision bookkeeping: the part joins the
group's `collidableParts` only when its flag is set at add time. -/
def groupAddPart (w : EngineState) (g pid : Nat) : EngineState :=
  if (getPart w pid).canCollide then
    { w with groupIds := w.groupIds.set g ((w.groupIds.getD g []) ++ [pid]) }
  else w

/-- Part.setCanCollide: mutates only the part's own flag. -/
def setCanCollide (w : EngineState) (pid : Nat) (b : Bool) : EngineState :=
  { w with heap := w.heap.set pid { getPart w pid with canCollide := b } }

/-- The candidate list assembled by Engine.checkCollisions: the engine's
standalone collidable parts followed by every group's collidable parts. -/
def candidateIds (w : EngineState) : List Nat :=
  w.collidableIds ++ w.groupIds.flatten

/-- The health state of scenario B: full health, not invulnerable, the
default 1000 ms cooldown, no prior damage. -/
def hsScenarioB : HealthState := ⟨100, 100, false, 1000, 0⟩

/-- Claim C4: takeDamage returns false and changes no state exactly when the
body is invulnerable or the call is within the cooldown window of the last
successful damage; otherwise it clamps health at zero, records the damage
time and returns true; and a second call within the cooldown of a
successful call returns false and leaves the state unchanged. -/
theorem takeDamage_gate_spec (s : HealthState) (now amount : ℚ) :
    (takeDamage s now amount = (false, s) ↔
      (s.isInvulnerable = true ∨ now - s.lastDamageTime < s.invulnerabilityDuration)) ∧
    (s.isInvulnerable = false →
      ¬ (now - s.lastDamageTime < s.invulnerabilityDuration) →
      takeDamage s now amount =
        (true, { s with health := max 0 (s.health - amount), lastDamageTime := now })) ∧
    (∀ t2 a2, (takeDamage s now amount).1 = true →
      t2 - now < s.invulnerabilityDuration →
      takeDamage (takeDamage s now amount).2 t2 a2 =
        (false, (takeDamage s now amount).2)) := by
  unfold takeDamage
  by_cases hinv : s.isInvulnerable
  · simp [hinv]
  · by_cases hcool : now - s.lastDamageTime < s.invulnerabilityDuration
    · simp [hinv, hcool]
    · simp [hinv, hcool]

/-- Witness for the C4 theorem at scenario B: a successful hit at time 2000
followed by a rejected, state-preserving hit at time 2500. -/
theorem takeDamage_gate_spec_witness :
    (takeDamage hsScenarioB 2000 50).1 = true ∧
    takeDamage (takeDamage hsScenarioB 2000 50).2 2500 50 =
      (false, (takeDamage hsScenarioB 2000 50).2) :=
  ⟨by norm_num [takeDamage, hsScenarioB],
    (takeDamage_gate_spec hsScenarioB 2000 50).2.2 2500 50
      (by norm_num [takeDamage, hsScenarioB]) (by norm_num [hsScenarioB])⟩

/-- One takeDamage or heal call with a nonnegative amount keeps health
within bounds and preserves maxHealth. -/
theorem applyHealthOp_bounds (s : HealthState) (op : HealthOp)
    (h0 : 0 ≤ s.health) (h1 : s.health ≤ s.maxHealth) (ha : 0 ≤ op.amount) :
    0 ≤ (applyHealthOp s op).health ∧
      (applyHealthOp s op).health ≤ (applyHealthOp s op).maxHealth ∧
      (applyHealthOp s op).maxHealth = s.maxHealth := by
  cases op with
  | damage now a =>
    have ha' : (0 : ℚ) ≤ a := ha
    simp only [applyHealthOp, takeDamage]
    split
    · exact ⟨h0, h1, rfl⟩
    · split
      · exact ⟨h0, h1, rfl⟩
      · refine ⟨le_max_left _ _, ?_, rfl⟩
        exact max_le (le_trans h0 h1) (by linarith)
  | heal a =>
    have ha' : (0 : ℚ) ≤ a := ha
    simp only [applyHealthOp, heal]
    exact ⟨le_min (le_trans h0 h1) (by linarith), min_le_left _ _, trivial⟩

/-- A fold of nonnegative-amount health calls keeps health within bounds. -/
theorem foldl_applyHealthOp_bounds (ops : List HealthOp) :
    ∀ s : HealthState, 0 ≤ s.health → s.health ≤ s.maxHealth →
      (∀ op ∈ ops, 0 ≤ op.amount) →
      0 ≤ (ops.foldl applyHealthOp s).health ∧
        (ops.foldl applyHealthOp s).health ≤ (ops.foldl applyHealthOp s).maxHealth := by
  induction ops with
  | nil => exact fun s h0 h1 _ => ⟨h0, h1⟩
  | cons op rest ih =>
    intro s h0 h1 hops
    have hstep := applyHealthOp_bounds s op h0 h1 (hops op (List.mem_cons_self op rest))
    simpa using ih (applyHealthOp s op) hstep.1 hstep.2.1
      (fun o ho => hops o (List.mem_cons_of_mem op ho))

/-- Claim C5: for every sequence of takeDamage and heal calls with
nonnegative amounts, starting from a state with health within bounds, the
invariant `0 ≤ health ≤ maxHealth` holds after the sequence; in particular
heal clamps at maxHealth (heal 30 at health 90 of max 100 gives 100). -/
theorem health_bounds_invariant (s : HealthState) (ops : List HealthOp)
    (h0 : 0 ≤ s.health) (h1 : s.health ≤ s.maxHealth)
    (hops : ∀ op ∈ ops, 0 ≤ op.amount) :
    0 ≤ (ops.foldl applyHealthOp s).health ∧
      (ops.foldl applyHealthOp s).health ≤ (ops.foldl applyHealthOp s).maxHealth ∧
      (heal ⟨90, 100, false, 1000, 0⟩ 30).health = 100 := by
  have h := foldl_applyHealthOp_bounds ops s h0 h1 hops
  exact ⟨h.1, h.2, by norm_num [heal, min_def]⟩

/-- Witness for the C5 theorem: a hit for 50 at time 2000 followed by a heal
of 30, starting from scenario B. -/
theorem health_bounds_invariant_witness :
    0 ≤ (([HealthOp.damage 2000 50, HealthOp.heal 30].foldl applyHealthOp
        hsScenarioB)).health ∧
      (([HealthOp.damage 2000 50, HealthOp.heal 30].foldl applyHealthOp
        hsScenarioB)).health ≤
        (([HealthOp.damage 2000 50, HealthOp.heal 30].foldl applyHealthOp
          hsScenarioB)).maxHealth ∧
      (heal ⟨90, 100, false, 1000, 0⟩ 30).health = 100 :=
  health_bounds_invariant hsScenarioB [HealthOp.damage 2000 50, HealthOp.heal 30]
    (by norm_num [hsScenarioB]) (by norm_num [hsScenarioB])
    (by intro op hop
        fin_cases hop <;> norm_num [HealthOp.amount])

/-- A fresh timed character: full health, no pending invulnerability. -/
def tc0 : TimedCharacter := ⟨⟨100, 100, false, 1000, 0⟩, []⟩

/-- When some pending clear deadline has passed, running the timers clears
the invulnerable flag. -/
theorem runTimersUpTo_clears (c : TimedCharacter) (t dl : ℚ)
    (hmem : dl ∈ c.pendingClears) (hle : dl ≤ t) :
    (runTimersUpTo c t).hs.isInvulnerable = false := by
  unfold runTimersUpTo
  have hany : (c.pendingClears.any fun x => decide (x ≤ t)) = true :=
    List.any_eq_true.2 ⟨dl, hmem, decide_eq_true hle⟩
  rw [if_pos hany]

/-- Counterexample to claim C8: setInvulnerable(100) at time 0 followed by a
re-entrant setInvulnerable(1000) at time 50 — the first pending timer fires
at time 100 and clears the flag even though the second window lasts until
1050, so the body is no longer invulnerable at time 100 < 50 + 1000. -/
theorem setInvulnerable_reentrant_cex :
    (runTimersUpTo (setInvulnerableAt (setInvulnerableAt tc0 0 100) 50 1000)
        100).hs.isInvulnerable = false ∧
      (100 : ℚ) < 50 + 1000 := by
  constructor
  · exact runTimersUpTo_clears _ 100 (0 + 100) (by simp [setInvulnerableAt, tc0])
      (by norm_num)
  · norm_num

/-- Claim C8 as amended: a re-entrant setInvulnerable sets the flag and
appends a new clear deadline without cancelling the earlier timer, so once
any pending deadline (in particular the earlier call's `t1 + d1`) has
passed, the flag is cleared — possibly before the new window `t2 + d2`
ends. -/
theorem setInvulnerable_reentrant_amended (c : TimedCharacter) (t1 d1 t2 d2 t : ℚ)
    (hfire : t1 + d1 ≤ t) :
    (setInvulnerableAt (setInvulnerableAt c t1 d1) t2 d2).pendingClears =
      (c.pendingClears ++ [t1 + d1]) ++ [t2 + d2] ∧
    (runTimersUpTo (setInvulnerableAt (setInvulnerableAt c t1 d1) t2 d2)
        t).hs.isInvulnerable = false := by
  refine ⟨rfl, runTimersUpTo_clears _ t (t1 + d1) ?_ hfire⟩
  simp [setInvulnerableAt]

/-- Witness for the amended C8 theorem at the concrete counterexample
timeline. -/
theorem setInvulnerable_reentrant_amended_witness :
    (setInvulnerableAt (setInvulnerableAt tc0 0 100) 50 1000).pendingClears =
      (tc0.pendingClears ++ [0 + 100]) ++ [50 + 1000] ∧
    (runTimersUpTo (setInvulnerableAt (setInvulnerableAt tc0 0 100) 50 1000)
        100).hs.isInvulnerable = false :=
  setInvulnerable_reentrant_amended tc0 0 100 50 1000 100 (by norm_num)

/-- Claim C10: setInvulnerable(duration) overwrites the character's
invulnerabilityDuration permanently — the new value survives the timer that
clears the flag, and once the flag is clear, takeDamage rejects a hit
exactly when it falls within the new duration of the last damage time. -/
theorem setInvulnerable_overwrites_cooldown (c : TimedCharacter)
    (now d t now2 a : ℚ)
    (hclear : (runTimersUpTo (setInvulnerableAt c now d) t).hs.isInvulnerable = false) :
    (setInvulnerableAt c now d).hs.invulnerabilityDuration = d ∧
    (runTimersUpTo (setInvulnerableAt c now d) t).hs.invulnerabilityDuration = d ∧
    ((takeDamage (runTimersUpTo (setInvulnerableAt c now d) t).hs now2 a).1 = false ↔
      now2 - (runTimersUpTo (setInvulnerableAt c now d) t).hs.lastDamageTime < d) := by
  have hdur : (runTimersUpTo (setInvulnerableAt c now d) t).hs.invulnerabilityDuration = d := by
    unfold runTimersUpTo
    split <;> rfl
  refine ⟨rfl, hdur, ?_⟩
  rw [takeDamage, hclear]
  simp only [Bool.false_eq_true, if_false, hdur]
  split <;> simp_all

/-- Witness for the C10 theorem: setInvulnerable(77) at time 0, timer fired
by time 100, probing takeDamage at time 10. -/
theorem setInvulnerable_overwrites_cooldown_witness :
    (setInvulnerableAt tc0 0 77).hs.invulnerabilityDuration = 77 ∧
    (runTimersUpTo (setInvulnerableAt tc0 0 77) 100).hs.invulnerabilityDuration = 77 ∧
    ((takeDamage (runTimersUpTo (setInvulnerableAt tc0 0 77) 100).hs 10 5).1 = false ↔
      10 - (runTimersUpTo (setInvulnerableAt tc0 0 77) 100).hs.lastDamageTime < 77) :=
  setInvulnerable_overwrites_cooldown tc0 0 77 100 10 5
    (runTimersUpTo_clears _ 100 (0 + 77) (by simp [setInvulnerableAt, tc0])
      (by norm_num))

/-- Geometry extents of the default character model, bottom of the legs to
the top of the head. -/
def bodyMinStd : Vec3 := ⟨-0.5, -2, -0.5⟩

/-- Upper geometry extents of the default character model. -/
def bodyMaxStd : Vec3 := ⟨0.5, 2.5, 0.5⟩

/-- A body falling onto the floor: bottom of the bounding box at y = 0.8,
already 0.2 below the floor top at y = 1, falling at -0.3, with one stored
history position.  Tunables are the Character.properties defaults. -/
def fallingPlayer : PlayerState where
  position := ⟨0, 2.8, 0⟩
  velocity := ⟨0, -0.3, 0⟩
  isGrounded := false
  isJumping := false
  canCollide := true
  positionHistory := [⟨0, 5, 0⟩]
  bodyMin := bodyMinStd
  bodyMax := bodyMaxStd
  moveSpeed := 0.1
  jumpForce := 0.3
  gravity := 0.01
  maxFallSpeed := 0.5
  airResistance := 0.95
  groundFriction := 0.85
  maxVelocity := 0.5

/-- A 100 by 100 static floor slab whose top surface is at y = 1. -/
def floorBox : Box3 := ⟨⟨-50, -1, -50⟩, ⟨50, 1, 50⟩⟩

/-- The floor as a collidable part. -/
def floorPart : Part := ⟨floorBox, true⟩

/-- A tall wall beside the falling body, overlapping its bounding box. -/
def wallBox : Box3 := ⟨⟨0.3, -1, -50⟩, ⟨10, 20, 50⟩⟩

/-- The wall as a collidable part. -/
def wallPart : Part := ⟨wallBox, true⟩

/-- The horizontal speed after clampHorizontal is at most the cap, and it
equals the cap exactly when the pre-clamp speed exceeded it. -/
theorem clampHorizontal_sqrt (v : Vec3) (m : ℝ) (hm : 0 ≤ m) :
    Real.sqrt ((clampHorizontal v m).x * (clampHorizontal v m).x +
        (clampHorizontal v m).z * (clampHorizontal v m).z) ≤ m ∧
      (Real.sqrt (v.x * v.x + v.z * v.z) > m →
        Real.sqrt ((clampHorizontal v m).x * (clampHorizontal v m).x +
          (clampHorizontal v m).z * (clampHorizontal v m).z) = m) := by
  by_cases hgt : Real.sqrt (v.x * v.x + v.z * v.z) > m
  · have h0 : 0 < Real.sqrt (v.x * v.x + v.z * v.z) := lt_of_le_of_lt hm hgt
    have hs : 0 ≤ m / Real.sqrt (v.x * v.x + v.z * v.z) := div_nonneg hm h0.le
    have hcl : clampHorizontal v m =
        ⟨v.x * (m / Real.sqrt (v.x * v.x + v.z * v.z)), v.y,
          v.z * (m / Real.sqrt (v.x * v.x + v.z * v.z))⟩ := by
      unfold clampHorizontal
      rw [if_pos hgt]
    have key : Real.sqrt ((clampHorizontal v m).x * (clampHorizontal v m).x +
        (clampHorizontal v m).z * (clampHorizontal v m).z) = m := by
      rw [hcl]
      have harith :
          v.x * (m / Real.sqrt (v.x * v.x + v.z * v.z)) *
              (v.x * (m / Real.sqrt (v.x * v.x + v.z * v.z))) +
            v.z * (m / Real.sqrt (v.x * v.x + v.z * v.z)) *
              (v.z * (m / Real.sqrt (v.x * v.x + v.z * v.z))) =
            m / Real.sqrt (v.x * v.x + v.z * v.z) *
              (m / Real.sqrt (v.x * v.x + v.z * v.z)) *
              (v.x * v.x + v.z * v.z) := by ring
      rw [harith, Real.sqrt_mul (mul_self_nonneg _), Real.sqrt_mul_self hs,
        div_mul_cancel₀ m (ne_of_gt h0)]
    exact ⟨le_of_eq key, fun _ => key⟩
  · have hcl : clampHorizontal v m = v := by
      unfold clampHorizontal
      rw [if_neg hgt]
    rw [hcl]
    exact ⟨not_lt.1 hgt, fun hc => absurd hc hgt⟩

/-- Claim C6: after the horizontal speed clamp step the horizontal speed is
at most maxVelocity; whenever the pre-clamp speed exceeds maxVelocity both
components are rescaled so the post-clamp speed is exactly maxVelocity; and
at the tick level the integrator's resulting velocity respects the cap. -/
theorem horizontal_speed_clamped (v : Vec3) (m : ℝ) (hm : 0 ≤ m)
    (p : PlayerState) (keys : InputKeys) (cam : Vec3) (hp : 0 ≤ p.maxVelocity) :
    Real.sqrt ((clampHorizontal v m).x * (clampHorizontal v m).x +
        (clampHorizontal v m).z * (clampHorizontal v m).z) ≤ m ∧
      (Real.sqrt (v.x * v.x + v.z * v.z) > m →
        Real.sqrt ((clampHorizontal v m).x * (clampHorizontal v m).x +
          (clampHorizontal v m).z * (clampHorizontal v m).z) = m) ∧
      Real.sqrt ((update p keys cam).velocity.x * (update p keys cam).velocity.x +
        (update p keys cam).velocity.z * (update p keys cam).velocity.z) ≤
        p.maxVelocity := by
  have h1 := clampHorizontal_sqrt v m hm
  have h2 := clampHorizontal_sqrt (velocityBeforeClamp p keys) p.maxVelocity hp
  exact ⟨h1.1, h1.2, h2.1⟩

/-- Witness for the C6 theorem at a pre-clamp velocity of norm 5 against a
cap of 1, inside an airborne standard player state. -/
theorem horizontal_speed_clamped_witness :
    Real.sqrt ((clampHorizontal ⟨3, 0, 4⟩ 1).x * (clampHorizontal ⟨3, 0, 4⟩ 1).x +
        (clampHorizontal ⟨3, 0, 4⟩ 1).z * (clampHorizontal ⟨3, 0, 4⟩ 1).z) ≤ 1 ∧
      (Real.sqrt ((3 : ℝ) * 3 + 4 * 4) > 1 →
        Real.sqrt ((clampHorizontal ⟨3, 0, 4⟩ 1).x * (clampHorizontal ⟨3, 0, 4⟩ 1).x +
          (clampHorizontal ⟨3, 0, 4⟩ 1).z * (clampHorizontal ⟨3, 0, 4⟩ 1).z) = 1) ∧
      Real.sqrt ((update fallingPlayer ⟨false, false, false, false, false⟩ ⟨0, 0, 1⟩).velocity.x *
          (update fallingPlayer ⟨false, false, false, false, false⟩ ⟨0, 0, 1⟩).velocity.x +
        (update fallingPlayer ⟨false, false, false, false, false⟩ ⟨0, 0, 1⟩).velocity.z *
          (update fallingPlayer ⟨false, false, false, false, false⟩ ⟨0, 0, 1⟩).velocity.z) ≤
        fallingPlayer.maxVelocity :=
  horizontal_speed_clamped ⟨3, 0, 4⟩ 1 zero_le_one fallingPlayer
    ⟨false, false, false, false, false⟩ ⟨0, 0, 1⟩ (by norm_num [fallingPlayer])

/-- Claim C7: the tick's resulting position is the previous position plus
the input-derived move intent plus the post-clamp velocity — the intent and
the velocity are summed. -/
theorem position_sums_intent_and_velocity (p : PlayerState) (keys : InputKeys)
    (cam : Vec3) :
    (update p keys cam).position =
      p.position + moveIntentOf keys cam p.moveSpeed + (update p keys cam).velocity :=
  (Vec3.add_assoc3 _ _ _).symm

/-- Characterization of handleCollision on a top contact: the grounded and
jumping flags are set, the vertical velocity is zeroed, and nothing else —
in particular the position — changes (the push-up resolution computed by
the source is never applied). -/
theorem handleCollision_onTop (p : PlayerState) (b : Box3) (h : isOnTop p b) :
    handleCollision p b =
      { p with isGrounded := true, isJumping := false,
               velocity := ⟨p.velocity.x, 0, p.velocity.z⟩ } := by
  unfold handleCollision
  simp [h]

/-- Characterization of handleCollision on a non-top contact with empty
history: only the grounded flag is cleared. -/
theorem handleCollision_notTop_nil (p : PlayerState) (b : Box3)
    (h : ¬ isOnTop p b) (hh : p.positionHistory = []) :
    handleCollision p b = { p with isGrounded := false } := by
  unfold handleCollision
  simp [h, hh]

/-- Characterization of handleCollision on a non-top contact with non-empty
history: the grounded flag is cleared and the body is rewound to the oldest
stored position, with direction-aligned horizontal velocity zeroed and the
history reseeded. -/
theorem handleCollision_notTop_cons (p : PlayerState) (b : Box3) (v : Vec3)
    (t : List Vec3) (h : ¬ isOnTop p b) (hh : p.positionHistory = v :: t) :
    handleCollision p b =
      { p with position := v,
               isGrounded := false,
               velocity := ⟨(if |(collisionDirection p b).x| > 0.1 then 0 else p.velocity.x),
                            (if p.velocity.y < 0 then p.velocity.y else p.velocity.y),
                            (if |(collisionDirection p b).z| > 0.1 then 0 else p.velocity.z)⟩,
               positionHistory := [v] } := by
  unfold handleCollision rewindToHistory
  simp [h, hh]

/-- A non-top contact always leaves the tick with grounded cleared. -/
theorem handleCollision_notTop_grounded (p : PlayerState) (b : Box3)
    (h : ¬ isOnTop p b) : (handleCollision p b).isGrounded = false := by
  cases hp : p.positionHistory with
  | nil => rw [handleCollision_notTop_nil p b h hp]
  | cons v t => rw [handleCollision_notTop_cons p b v t h hp]

/-- A non-top contact with non-empty history rewinds the position. -/
theorem handleCollision_notTop_position (p : PlayerState) (b : Box3) (v : Vec3)
    (t : List Vec3) (h : ¬ isOnTop p b) (hh : p.positionHistory = v :: t) :
    (handleCollision p b).position = v ∧
      (handleCollision p b).positionHistory = [v] := by
  rw [handleCollision_notTop_cons p b v t h hh]
  exact ⟨rfl, rfl⟩

/-- The falling body over the floor is classified as a top contact (its
bounding-box bottom is within 0.5 of the floor top and it is falling). -/
theorem fallingPlayer_onTop_floor : isOnTop fallingPlayer floorBox := by
  refine Or.inr ⟨?_, by norm_num [fallingPlayer]⟩
  have h1 : (playerBox fallingPlayer).min.y - floorBox.max.y = -(0.2 : ℝ) := by
    norm_num [playerBox, fallingPlayer, floorBox, bodyMinStd, Vec3.add_def]
  rw [h1, abs_neg, abs_of_pos (by norm_num)]
  norm_num

/-- Claim C1: in the source the top-contact branch computes a push-up amount
but never applies it — at the falling-body scenario the resolver sets
grounded, clears jumping and zeroes the vertical velocity, yet leaves the
position unchanged, so the body ends the tick with its bounding-box bottom
at y = 0.8, strictly below the floor top at y = 1. -/
theorem top_contact_sets_flags_but_keeps_position :
    (handleCollision fallingPlayer floorBox).position = fallingPlayer.position ∧
    (handleCollision fallingPlayer floorBox).isGrounded = true ∧
    (handleCollision fallingPlayer floorBox).isJumping = false ∧
    (handleCollision fallingPlayer floorBox).velocity.y = 0 ∧
    (playerBox (handleCollision fallingPlayer floorBox)).min.y < floorBox.max.y := by
  rw [handleCollision_onTop fallingPlayer floorBox fallingPlayer_onTop_floor]
  refine ⟨rfl, rfl, rfl, rfl, ?_⟩
  norm_num [playerBox, fallingPlayer, floorBox, bodyMinStd, Vec3.add_def]

/-- The state produced by the floor's top contact during the two-candidate
tick: grounded, vertical velocity zeroed, position and history untouched. -/
def groundedThenWallPlayer : PlayerState :=
  { fallingPlayer with
      isGrounded := true
      isJumping := false
      velocity := ⟨fallingPlayer.velocity.x, 0, fallingPlayer.velocity.z⟩ }

/-- The tall wall candidate is not a top contact for the grounded body: the
collision direction points down (the wall center is far above the body
center) and the body bottom is 19.2 away from the wall top. -/
theorem wall_not_onTop : ¬ isOnTop groundedThenWallPlayer wallBox := by
  intro h
  rcases h with ⟨hy, -⟩ | ⟨habs, -⟩
  · have hneg : (collisionDirection groundedThenWallPlayer wallBox).y < 0 := by
      unfold collisionDirection
      apply Vec3.normalize_y_neg
      norm_num [Box3.center, playerBox, groundedThenWallPlayer, fallingPlayer,
        wallBox, bodyMinStd, bodyMaxStd, Vec3.add_def, Vec3.sub_def, Vec3.smul]
    exact absurd hy (not_lt.2 hneg.le)
  · have h1 : (playerBox groundedThenWallPlayer).min.y - wallBox.max.y = -(19.2 : ℝ) := by
      norm_num [playerBox, groundedThenWallPlayer, fallingPlayer, wallBox,
        bodyMinStd, Vec3.add_def]
    rw [h1, abs_neg, abs_of_pos (by norm_num)] at habs
    norm_num at habs

/-- The floor passes the narrow-phase test against the falling body at tick
start. -/
theorem floor_hits_tickStart :
    Part.checkCollision floorPart { fallingPlayer with isGrounded := false } := by
  refine ⟨rfl, rfl, ?_⟩
  unfold Box3.intersects
  push_neg
  norm_num [playerBox, fallingPlayer, floorPart, floorBox, bodyMinStd, bodyMaxStd,
    Vec3.add_def]

/-- The wall passes the narrow-phase test against the body after the floor's
top contact (whose resolution did not move it). -/
theorem wall_hits_grounded : Part.checkCollision wallPart groundedThenWallPlayer := by
  refine ⟨rfl, rfl, ?_⟩
  unfold Box3.intersects
  push_neg
  norm_num [playerBox, groundedThenWallPlayer, fallingPlayer, wallPart, wallBox,
    bodyMinStd, bodyMaxStd, Vec3.add_def]

/-- Counterexample to claim C2: a tick whose candidate list holds the floor
(top contact) and then the wall (side contact) ends with grounded = false —
the wall's non-top resolution overrides the floor's grounded = true. -/
theorem top_then_side_tick_not_grounded_cex :
    (checkCollisions fallingPlayer [floorPart, wallPart]).isGrounded = false := by
  have hstep1 : handleCollision { fallingPlayer with isGrounded := false }
      floorPart.boundingBox = groundedThenWallPlayer := by
    rw [handleCollision_onTop { fallingPlayer with isGrounded := false }
      floorPart.boundingBox fallingPlayer_onTop_floor]
    rfl
  have hchain : checkCollisions fallingPlayer [floorPart, wallPart] =
      handleCollision groundedThenWallPlayer wallPart.boundingBox := by
    unfold checkCollisions
    simp only [List.foldl_cons, List.foldl_nil]
    rw [if_pos floor_hits_tickStart, hstep1, if_pos wall_hits_grounded]
  rw [hchain]
  exact handleCollision_notTop_grounded groundedThenWallPlayer wallPart.boundingBox
    wall_not_onTop

/-- Claim C2 as amended: a later non-top candidate in the same tick clears
grounded unconditionally (so a top-then-side tick ends not grounded), while
the horizontal rewind for the side contact is still applied when the history
is non-empty. -/
theorem non_top_contact_clears_grounded (p : PlayerState) (b : Box3)
    (h : ¬ isOnTop p b) :
    (handleCollision p b).isGrounded = false ∧
      (∀ v t, p.positionHistory = v :: t → (handleCollision p b).position = v) := by
  refine ⟨handleCollision_notTop_grounded p b h, ?_⟩
  intro v t hh
  exact (handleCollision_notTop_position p b v t h hh).1

/-- Witness for the amended C2 theorem at the wall contact of the
two-candidate tick. -/
theorem non_top_contact_clears_grounded_witness :
    (handleCollision groundedThenWallPlayer wallBox).isGrounded = false ∧
      (∀ v t, groundedThenWallPlayer.positionHistory = v :: t →
        (handleCollision groundedThenWallPlayer wallBox).position = v) :=
  non_top_contact_clears_grounded groundedThenWallPlayer wallBox wall_not_onTop

/-- A body teleported inside a huge volume: penetration on every axis far
exceeds the body's own size; one stored history position at (7, 8, 9). -/
def deepPlayer : PlayerState where
  position := ⟨0, 0, 0⟩
  velocity := ⟨0, 0, 0⟩
  isGrounded := false
  isJumping := false
  canCollide := true
  positionHistory := [⟨7, 8, 9⟩]
  bodyMin := bodyMinStd
  bodyMax := bodyMaxStd
  moveSpeed := 0.1
  jumpForce := 0.3
  gravity := 0.01
  maxFallSpeed := 0.5
  airResistance := 0.95
  groundFriction := 0.85
  maxVelocity := 0.5

/-- A huge volume that completely swallows the embedded body, its center far
above the body center. -/
def hugeBox : Box3 := ⟨⟨-100, -50, -100⟩, ⟨100, 150, 100⟩⟩

/-- The embedded body is not a top contact of the huge volume. -/
theorem deepPlayer_not_onTop : ¬ isOnTop deepPlayer hugeBox := by
  intro h
  rcases h with ⟨hy, -⟩ | ⟨habs, -⟩
  · have hneg : (collisionDirection deepPlayer hugeBox).y < 0 := by
      unfold collisionDirection
      apply Vec3.normalize_y_neg
      norm_num [Box3.center, playerBox, deepPlayer, hugeBox, bodyMinStd, bodyMaxStd,
        Vec3.add_def, Vec3.sub_def, Vec3.smul]
    exact absurd hy (not_lt.2 hneg.le)
  · have h1 : (playerBox deepPlayer).min.y - hugeBox.max.y = -(152 : ℝ) := by
      norm_num [playerBox, deepPlayer, hugeBox, bodyMinStd, Vec3.add_def]
    rw [h1, abs_neg, abs_of_pos (by norm_num)] at habs
    norm_num at habs

/-- The x penetration of the embedded body exceeds its own width. -/
theorem deep_overlapX_big :
    overlapX deepPlayer hugeBox > deepPlayer.bodyMax.x - deepPlayer.bodyMin.x := by
  norm_num [overlapX, playerBox, deepPlayer, hugeBox, bodyMinStd, bodyMaxStd,
    Vec3.add_def, min_def]

/-- The y penetration of the embedded body exceeds its own height. -/
theorem deep_overlapY_big :
    overlapY deepPlayer hugeBox > deepPlayer.bodyMax.y - deepPlayer.bodyMin.y := by
  norm_num [overlapY, playerBox, deepPlayer, hugeBox, bodyMinStd, bodyMaxStd,
    Vec3.add_def, min_def]

/-- The z penetration of the embedded body exceeds its own depth. -/
theorem deep_overlapZ_big :
    overlapZ deepPlayer hugeBox > deepPlayer.bodyMax.z - deepPlayer.bodyMin.z := by
  norm_num [overlapZ, playerBox, deepPlayer, hugeBox, bodyMinStd, bodyMaxStd,
    Vec3.add_def, min_def]

/-- Counterexample to claim C3: with penetration beyond the body's size on
every axis, the resolver does not skip the candidate — it changes the
position (rewinding it to the stored history entry). -/
theorem deep_penetration_not_skipped_cex :
    overlapX deepPlayer hugeBox > deepPlayer.bodyMax.x - deepPlayer.bodyMin.x ∧
    overlapY deepPlayer hugeBox > deepPlayer.bodyMax.y - deepPlayer.bodyMin.y ∧
    overlapZ deepPlayer hugeBox > deepPlayer.bodyMax.z - deepPlayer.bodyMin.z ∧
    (handleCollision deepPlayer hugeBox).position ≠ deepPlayer.position := by
  refine ⟨deep_overlapX_big, deep_overlapY_big, deep_overlapZ_big, ?_⟩
  rw [(handleCollision_notTop_position deepPlayer hugeBox ⟨7, 8, 9⟩ []
    deepPlayer_not_onTop rfl).1]
  intro heq
  have hx := congrArg Vec3.x heq
  norm_num [deepPlayer] at hx

/-- Claim C3 as amended: the resolver has no penetration sanity bound — a
non-top candidate whose penetration exceeds the body's own size on every
axis is resolved like any other non-top contact: with a non-empty history
the body is rewound to the oldest stored position and the history reseeded,
rather than the candidate being skipped with the position unchanged. -/
theorem deep_penetration_still_rewinds (p : PlayerState) (b : Box3) (v : Vec3)
    (t : List Vec3)
    (_hx : overlapX p b > p.bodyMax.x - p.bodyMin.x)
    (_hy : overlapY p b > p.bodyMax.y - p.bodyMin.y)
    (_hz : overlapZ p b > p.bodyMax.z - p.bodyMin.z)
    (hnot : ¬ isOnTop p b) (hh : p.positionHistory = v :: t) :
    (handleCollision p b).position = v ∧
      (handleCollision p b).positionHistory = [v] :=
  handleCollision_notTop_position p b v t hnot hh

/-- Witness for the amended C3 theorem at the embedded-body scenario. -/
theorem deep_penetration_still_rewinds_witness :
    (handleCollision deepPlayer hugeBox).position = ⟨7, 8, 9⟩ ∧
      (handleCollision deepPlayer hugeBox).positionHistory = [⟨7, 8, 9⟩] :=
  deep_penetration_still_rewinds deepPlayer hugeBox ⟨7, 8, 9⟩ []
    deep_overlapX_big deep_overlapY_big deep_overlapZ_big deepPlayer_not_onTop rfl

/-- A collidable unit cube part living in the engine heap. -/
def part0 : Part := ⟨⟨⟨0, 0, 0⟩, ⟨1, 1, 1⟩⟩, true⟩

/-- An engine with one part and nothing registered yet. -/
def w0 : EngineState := ⟨[part0], [], []⟩

/-- Register the part while its flag is set, then clear its flag. -/
def w2 : EngineState := setCanCollide (addToCollisionSystem w0 0) 0 false

/-- Counterexample to claim C9: a part registered while collidable and made
non-collidable afterwards still appears in the candidate list assembled for
narrow-phase testing, although its flag is now false. -/
theorem stale_noncollidable_candidate_cex :
    0 ∈ candidateIds w2 ∧ (getPart w2 0).canCollide = false := by
  constructor
  · simp [w2, w0, part0, candidateIds, setCanCollide, addToCollisionSystem, getPart]
  · simp [w2, w0, part0, setCanCollide, addToCollisionSystem, getPart]

/-- A non-collidable part at its position in the heap. -/
def partNC : Part := ⟨⟨⟨0, 0, 0⟩, ⟨1, 1, 1⟩⟩, false⟩

/-- Claim C9 as amended: the collidable flag is honoured only at
registration time — addToCollisionSystem and Group.add refuse a part whose
flag is already false, but setCanCollide leaves the candidate list
untouched, so clearing the flag later does not remove the part from it;
the narrow-phase checkCollision does re-read the flag and rejects such a
part. -/
theorem collidable_flag_filter (w : EngineState) (pid g : Nat) (b : Bool)
    (part : Part) (q : PlayerState) (hpart : part.canCollide = false) :
    candidateIds (setCanCollide w pid b) = candidateIds w ∧
    ((getPart w pid).canCollide = false → addToCollisionSystem w pid = w) ∧
    ((getPart w pid).canCollide = false → groupAddPart w g pid = w) ∧
    ¬ Part.checkCollision part q := by
  refine ⟨rfl, ?_, ?_, ?_⟩
  · intro h
    simp [addToCollisionSystem, h]
  · intro h
    simp [groupAddPart, h]
  · intro hc
    have h1 : part.canCollide = true := hc.1
    rw [hpart] at h1
    exact Bool.false_ne_true h1

/-- Witness for the amended C9 theorem on the one-part engine, against the
embedded-body player state. -/
theorem collidable_flag_filter_witness :
    candidateIds (setCanCollide w0 0 false) = candidateIds w0 ∧
    ((getPart w0 0).canCollide = false → addToCollisionSystem w0 0 = w0) ∧
    ((getPart w0 0).canCollide = false → groupAddPart w0 0 0 = w0) ∧
    ¬ Part.checkCollision partNC deepPlayer :=
  collidable_flag_filter w0 0 0 false partNC deepPlayer rfl

end Engineish
